import Mathlib

/-!
Shallow embedding of the eth-service transaction subsystem:
the status controller (src/app/controllers/transaction.controller.js),
the submitter `makeTransaction` and the receipt tracker
`waitForTransactionReceipt` (src/lib/ethereum.js), and the
`positiveVerdict` functions of the companion escrow contract
(src/contract/escrow.sol).
-/

/-- Receipt object returned by the node for a mined transaction.
`status` is the status field of the receipt, absent on pre-Byzantium receipts;
`gasUsed` the consumed gas. -/
structure Receipt where
  status : Option String
  gasUsed : Nat
deriving DecidableEq

/-- Record returned by the getTransaction lookup of the node; `gas` is the
gas limit of the transaction. -/
structure TransactionRecord where
  gas : Nat
deriving DecidableEq

/-- Body of a controller response, mirroring the literal objects of the
`status` table in transaction.controller.js. -/
structure StatusResponse where
  status : String
  message : String
  possibleReason : Option String := none
deriving DecidableEq

/-- Entry `status.NOT_REACHED` of the controller response table. -/
def statusNOT_REACHED : StatusResponse :=
  { status := "NOT_REACHED"
    message := "Transaction does not reached to blockchain nodes!" }

/-- Entry `status.PENDING` of the controller response table. -/
def statusPENDING : StatusResponse :=
  { status := "PENDING", message := "Trasaction is in Pending State" }

/-- Entry `status.REVERTED` of the controller response table. -/
def statusREVERTED : StatusResponse :=
  { status := "FAILED", message := "Transaction Failed"
    possibleReason := some "REVERTED" }

/-- Entry `status.OUTOFGAS` of the controller response table. -/
def statusOUTOFGAS : StatusResponse :=
  { status := "FAILED", message := "Transaction Failed"
    possibleReason := some "Out of Gas" }

/-- Entry `status.SUCCESS` of the controller response table. -/
def statusSUCCESS : StatusResponse :=
  { status := "SUCCESS", message := "Transaction Completed Successfully!" }

/-- Outcome of one controller request: `Responder.success` with a body, or
`Responder.operationFailed` with the message of the thrown error. -/
inductive ControllerResponse where
  | success (body : StatusResponse)
  | operationFailed (message : String)
deriving DecidableEq

/-- Methods defined by `class Ethereum` in src/lib/ethereum.js (besides the
constructor); this is the method surface of the exported singleton. -/
def ethereumMethods : List String :=
  ["loadContracts", "loadContract", "deployContract", "callContractFunction",
   "makeTransaction", "getTransactionReceipt", "waitForTransactionReceipt",
   "toAscii"]

/-- Whether the exported Ethereum object defines a `getTransaction` method.
The class does not, so `Ethereum.getTransaction(...)` throws a TypeError. -/
def ethereumHasGetTransaction : Bool :=
  ethereumMethods.contains "getTransaction"

/-- Embedding of `Transaction.getTransactionStatus`.  Inputs are the answers of the node for the requested hash: the receipt lookup result and the
transaction lookup result.  Every call of `Ethereum.getTransaction` is
guarded by `ethereumHasGetTransaction`: since the method is missing, such a
call throws `TypeError: Ethereum.getTransaction is not a function`, which
the catch of the handler turns into `Responder.operationFailed`. -/
def Transaction.getTransactionStatus
    (receipt : Option Receipt) (transaction : Option TransactionRecord) :
    ControllerResponse :=
  match receipt with
  | none =>
      if ethereumHasGetTransaction then
        match transaction with
        | none => .success statusNOT_REACHED
        | some _ => .success statusPENDING
      else
        .operationFailed "Ethereum.getTransaction is not a function"
  | some r =>
      if r.status = some "0x0" then
        if ethereumHasGetTransaction then
          match transaction with
          | some t =>
              if r.gasUsed = t.gas then .success statusOUTOFGAS
              else .success statusREVERTED
          | none =>
              .operationFailed "Cannot read properties of null"
        else
          .operationFailed "Ethereum.getTransaction is not a function"
      else
        .success statusSUCCESS

/-- The serialized-and-signed payload built from the `transaction` object in
`makeTransaction`; determines the bytes sent to the node. -/
structure SignedTransaction where
  nonce : Nat
  gasPrice : Nat
  gasLimit : Nat
  toAddr : Option String
  data : String
deriving DecidableEq

/-- Errors a `makeTransaction` call can surface: an Error thrown by the
node (carrying its message), or a ReferenceError from evaluating an
identifier that is not in scope. -/
inductive JsError where
  | nodeError (message : String)
  | referenceError (message : String)
deriving DecidableEq

/-- The web3 facilities `makeTransaction` consumes, as functions of the
request data: gas estimation, transaction-count (nonce) lookup, the gas
price, and the answer of the node to submitting a given signed payload. -/
structure Web3Env where
  estimateGas : String → String → Option String → Nat
  getTransactionCount : String → Nat
  gasPrice : Nat
  sendRawTransaction : SignedTransaction → Except String String

/-- Embedding of `Ethereum.makeTransaction(data, from, privatekey, to,
attempt = 0)`.  The try block resolves the gas limit from config or the
estimate, fetches nonce and gas price, signs `nonce + attempt`, and
submits.  In the catch block, when `attempt < 3` and the message is
literally "nonce too low", the argument list of the retry call evaluates the
identifier `gasLimit` — but that `const` is scoped to the try block, so the
evaluation throws `ReferenceError: gasLimit is not defined` before any
recursive call happens; every other error is rethrown as is. -/
def Ethereum.makeTransaction (web3 : Web3Env) (configGasLimit : Option Nat)
    (data fromAddr privatekey : String) (toAddr : Option String)
    (attempt : Nat) : Except JsError String :=
  let gasLimit := configGasLimit.getD (web3.estimateGas data fromAddr toAddr)
  let nonce := web3.getTransactionCount fromAddr
  let gasprice := web3.gasPrice
  let transaction : SignedTransaction :=
    { nonce := nonce + attempt, gasPrice := gasprice, gasLimit := gasLimit
      toAddr := toAddr, data := data }
  match web3.sendRawTransaction transaction with
  | .ok txhash => .ok txhash
  | .error message =>
      if attempt < 3 ∧ message = "nonce too low" then
        .error (.referenceError "gasLimit is not defined")
      else
        .error (.nodeError message)

/-- Answers of the node as seen by the tracker, indexed by the elapsed time
at which the request is issued: the receipt lookup and whether the
transaction lookup returns a record (truthy) for the tracked hash. -/
structure NodeView where
  receiptAt : Nat → Option Receipt
  transactionAt : Nat → Bool

/-- Errors thrown by `waitForTransactionReceipt`, carrying the elapsed time
at which the throw happens: the 1-hour tracking timeout and the propagation failure. -/
inductive TrackError where
  | trackingTimeout (elapsed : Nat)
  | notPropagated (elapsed : Nat)
deriving DecidableEq

/-- Embedding of `Ethereum.waitForTransactionReceipt(txhash, time = 0)`.
The body first fetches the receipt, then throws the timeout when
`time > 3600000`, then — when `60000 < time ≤ 70000` — probes
`getTransaction` and throws `notPropagated` when the node has no record,
and only then inspects the receipt: absent means sleep 5000 ms and recurse
at `time + 5000`, present means return the receipt.  The second component
collects the elapsed times at which the `getTransaction` probe was issued. -/
def Ethereum.waitForTransactionReceipt (node : NodeView) (time : Nat) :
    Except TrackError Receipt × List Nat :=
  let receipt := node.receiptAt time
  if h : time > 3600000 then
    (.error (.trackingTimeout time), [])
  else if 60000 < time ∧ time ≤ 70000 then
    if node.transactionAt time then
      match receipt with
      | none =>
          let rest := Ethereum.waitForTransactionReceipt node (time + 5000)
          (rest.1, time :: rest.2)
      | some rc => (.ok rc, [time])
    else
      (.error (.notPropagated time), [time])
  else
    match receipt with
    | none => Ethereum.waitForTransactionReceipt node (time + 5000)
    | some rc => (.ok rc, [])
termination_by 3600001 - time
decreasing_by
  all_goals omega

/-- Job lifecycle states of the escrow contract (both versions declare the
same enum). -/
inductive JobState where
  | Absent | Created | Assigned | Completed | Arbitration | Paid | Unacceptable
deriving DecidableEq

/-- Job record of the first Escrow contract in escrow.sol (around line 124). -/
structure JobA where
  description : String
  vodiant : Nat
  vodeer : Nat
  vodiantTokensStaked : Nat
  payoutStartTime : Nat
  arbitrationTime : Nat
  arbiter : Nat
  vodiantDissatisfied : Bool
  status : JobState
deriving DecidableEq

/-- Job record of the second Escrow contract in escrow.sol (around line 463),
which additionally stakes vodeer tokens. -/
structure JobB where
  description : String
  vodiant : Nat
  vodeer : Nat
  vodiantTokensStaked : Nat
  vodeerTokensStaked : Nat
  payoutStartTime : Nat
  arbitrationTime : Nat
  arbiter : Nat
  status : JobState
deriving DecidableEq

/-- Embedding of `positiveVerdict` of the first Escrow contract (lines
302-314).  Modifiers run in order: `isArbiter` requires the caller to be
the arbiter of the job, `checkStatus` requires the Arbitration state, and
`hasTransferred` runs the body first and then requires the token transfer
to the vodeer to succeed (`transferOk`).  The statement in the body
`jobDetails[_nonce].status == JobState.Paid;` evaluates a comparison and
discards the result, so the returned job mapping is the input unchanged. -/
def EscrowA.positiveVerdict (jobDetails : Nat → JobA) (sender nonceArg : Nat)
    (transferOk : Bool) : Except String (Nat → JobA) :=
  if (jobDetails nonceArg).arbiter ≠ sender then
    .error "Not the arbiter for this job"
  else if (jobDetails nonceArg).status ≠ JobState.Arbitration then
    .error "Job is at a different stage"
  else
    let _cmp := (jobDetails nonceArg).status = JobState.Paid
    if transferOk then .ok jobDetails
    else .error "Insufficient funds in contract"

/-- Embedding of `positiveVerdict` of the second Escrow contract (lines
551-562).  It requires the Arbitration state, then that the caller is the
arbiter, evaluates and discards the comparison
`jobDetails[_nonce].status == JobState.Paid;`, and requires the ERC20
transfer of the combined stakes to the vodeer to succeed (`transferOk`). -/
def EscrowB.positiveVerdict (jobDetails : Nat → JobB) (sender nonceArg : Nat)
    (transferOk : Bool) : Except String (Nat → JobB) :=
  if (jobDetails nonceArg).status ≠ JobState.Arbitration then
    .error "Job is at a different stage"
  else if (jobDetails nonceArg).arbiter ≠ sender then
    .error "Not the arbiter for this job"
  else
    let _cmp := (jobDetails nonceArg).status = JobState.Paid
    if transferOk then .ok jobDetails
    else .error "Insufficient funds in contract"

/-- Concrete web3 environment whose node rejects every submission with the
literal "nonce too low" message. -/
def nonceTooLowWeb3 : Web3Env :=
  { estimateGas := fun _ _ _ => 21000
    getTransactionCount := fun _ => 7
    gasPrice := 5
    sendRawTransaction := fun _ => .error "nonce too low" }

/-- Concrete web3 environment whose node rejects every submission with an
error other than the nonce-collision one. -/
def otherErrorWeb3 : Web3Env :=
  { estimateGas := fun _ _ _ => 21000
    getTransactionCount := fun _ => 7
    gasPrice := 5
    sendRawTransaction := fun _ => .error "insufficient funds" }

/-- C1: the status query does not realize the specified decision table: at
the failing input (receipt absent, node record absent) the handler calls
the undefined `Ethereum.getTransaction`, so it answers `operationFailed`
instead of NOT_REACHED; the Ethereum module indeed lacks the method. -/
theorem c1_status_query_fails_instead_of_NOT_REACHED :
    Transaction.getTransactionStatus none none =
      .operationFailed "Ethereum.getTransaction is not a function" ∧
    ethereumHasGetTransaction = false := ⟨rfl, rfl⟩

/-- C4: since the Ethereum module defines no `getTransaction`, every query
with an absent receipt, and every query whose receipt has failure status
"0x0", answers `operationFailed`; consequently every query answers either
SUCCESS or the operation-failed error, and the NOT_REACHED, PENDING,
OUT_OF_GAS and REVERTED responses are unreachable. -/
theorem c4_only_success_or_error_reachable :
    ethereumHasGetTransaction = false ∧
    (∀ txr : Option TransactionRecord,
      Transaction.getTransactionStatus none txr =
        .operationFailed "Ethereum.getTransaction is not a function") ∧
    (∀ (r : Receipt) (txr : Option TransactionRecord),
      r.status = some "0x0" →
      Transaction.getTransactionStatus (some r) txr =
        .operationFailed "Ethereum.getTransaction is not a function") ∧
    (∀ (rc : Option Receipt) (txr : Option TransactionRecord),
      Transaction.getTransactionStatus rc txr = .success statusSUCCESS ∨
      Transaction.getTransactionStatus rc txr =
        .operationFailed "Ethereum.getTransaction is not a function") := by
  refine ⟨rfl, fun txr => rfl, fun r txr h => ?_, fun rc txr => ?_⟩
  · simp [Transaction.getTransactionStatus, h, ethereumHasGetTransaction,
      ethereumMethods]
  · match rc with
    | none => exact Or.inr rfl
    | some r =>
        by_cases h : r.status = some "0x0"
        · exact Or.inr (by
            simp [Transaction.getTransactionStatus, h,
              ethereumHasGetTransaction, ethereumMethods])
        · exact Or.inl (by simp [Transaction.getTransactionStatus, h])

/-- Witness for C4 at a concrete failure receipt: the query answers the
operation-failed error. -/
theorem c4_only_success_or_error_reachable_witness :
    Transaction.getTransactionStatus (some ⟨some "0x0", 21000⟩) none =
      .operationFailed "Ethereum.getTransaction is not a function" :=
  c4_only_success_or_error_reachable.2.2.1 ⟨some "0x0", 21000⟩ none rfl

/-- C2: at the failing input — a node answering the literal "nonce too low"
on the first attempt — `makeTransaction` does not retry with the base nonce
plus one: the catch block evaluates the try-scoped `gasLimit`, so the call
ends with `ReferenceError: gasLimit is not defined`. -/
theorem c2_nonce_collision_raises_referenceError :
    Ethereum.makeTransaction nonceTooLowWeb3 none
      "0xdata" "0xsender" "0xkey" none 0 =
      .error (.referenceError "gasLimit is not defined") := rfl

/-- C3: a non-nonce submission error propagates immediately and unchanged,
but on the literal "nonce too low" error no retry and no re-raise of the
underlying error happens: the call ends with the ReferenceError from the
broken retry expression instead. -/
theorem c3_no_retry_and_no_underlying_reraise :
    Ethereum.makeTransaction otherErrorWeb3 none
      "0xdata" "0xsender" "0xkey" none 0 =
      .error (.nodeError "insufficient funds") ∧
    Ethereum.makeTransaction nonceTooLowWeb3 none
      "0xdata" "0xsender" "0xkey" none 0 =
      .error (.referenceError "gasLimit is not defined") := ⟨rfl, rfl⟩

/-- C9: whenever `positiveVerdict` passes its preconditions (job in
Arbitration, caller is the arbiter, token transfer succeeds), the call
returns with the job mapping completely unchanged — in both contract
versions the statement `jobDetails[_nonce].status == JobState.Paid;` is a
discarded comparison, so the job stays in Arbitration. -/
theorem c9_positiveVerdict_leaves_status_unchanged
    (jdA : Nat → JobA) (jdB : Nat → JobB) (sA sB nA nB : Nat)
    (hA1 : (jdA nA).status = JobState.Arbitration)
    (hA2 : (jdA nA).arbiter = sA)
    (hB1 : (jdB nB).status = JobState.Arbitration)
    (hB2 : (jdB nB).arbiter = sB) :
    EscrowA.positiveVerdict jdA sA nA true = .ok jdA ∧
    EscrowB.positiveVerdict jdB sB nB true = .ok jdB := by
  unfold EscrowA.positiveVerdict EscrowB.positiveVerdict
  simp [hA1, hA2, hB1, hB2]

/-- Concrete Arbitration-stage job for the first contract version. -/
def jobArbA : JobA :=
  { description := "job", vodiant := 1, vodeer := 2
    vodiantTokensStaked := 100, payoutStartTime := 0, arbitrationTime := 0
    arbiter := 9, vodiantDissatisfied := true, status := JobState.Arbitration }

/-- Concrete Arbitration-stage job for the second contract version. -/
def jobArbB : JobB :=
  { description := "job", vodiant := 1, vodeer := 2
    vodiantTokensStaked := 100, vodeerTokensStaked := 50
    payoutStartTime := 0, arbitrationTime := 0
    arbiter := 9, status := JobState.Arbitration }

/-- Witness for C9 at concrete Arbitration-stage jobs with arbiter 9. -/
theorem c9_positiveVerdict_leaves_status_unchanged_witness :
    EscrowA.positiveVerdict (fun _ => jobArbA) 9 0 true =
      .ok (fun _ => jobArbA) ∧
    EscrowB.positiveVerdict (fun _ => jobArbB) 9 0 true =
      .ok (fun _ => jobArbB) :=
  c9_positiveVerdict_leaves_status_unchanged
    (fun _ => jobArbA) (fun _ => jobArbB) 9 9 0 0 rfl rfl rfl rfl

/-- Node whose receipt lookup never answers and whose transaction lookup
always finds a record: the hash stays pending forever. -/
def node0 : NodeView := ⟨fun _ => none, fun _ => true⟩

/-- Successful receipt used by the concrete node views below. -/
def rc1 : Receipt := ⟨some "0x1", 21000⟩

/-- Node that always has a receipt and a transaction record. -/
def nodeAllSome : NodeView := ⟨fun _ => some rc1, fun _ => true⟩

/-- Node that has a receipt but whose transaction lookup answers nothing. -/
def nodePresentNoTx : NodeView := ⟨fun _ => some rc1, fun _ => false⟩

/-- Receipt with an absent status field, as produced for pre-Byzantium
blocks. -/
def rcNoStatus : Receipt := ⟨none, 0⟩

/-- Node that always answers with a status-less receipt. -/
def nodeNoStatus : NodeView := ⟨fun _ => some rcNoStatus, fun _ => true⟩

/-- Above the diagnostic window, a run on a never-answering node steps in
5000 ms ticks straight to the first tick past 3600000 ms, namely 3605000,
and throws the tracking timeout there, with no probe. -/
theorem waitTail (node : NodeView)
    (hrec : ∀ u, u ≤ 3600000 → node.receiptAt u = none) :
    ∀ m t, t % 5000 = 0 → 70000 < t → t ≤ 3605000 → 3600001 - t ≤ 5000 * m →
    Ethereum.waitForTransactionReceipt node t =
      (.error (.trackingTimeout 3605000), []) := by
  intro m
  induction m with
  | zero =>
      intro t ht5 hgt hle hm
      have ht : t = 3605000 := by omega
      subst ht
      rw [Ethereum.waitForTransactionReceipt]
      norm_num
  | succ m ih =>
      intro t ht5 hgt hle hm
      by_cases hbig : t > 3600000
      · have ht : t = 3605000 := by omega
        subst ht
        rw [Ethereum.waitForTransactionReceipt]
        norm_num
      · have h2 : ¬ (60000 < t ∧ t ≤ 70000) := by omega
        have h3 : node.receiptAt t = none := hrec t (by omega)
        rw [Ethereum.waitForTransactionReceipt]
        simp only [dif_neg hbig, if_neg h2, h3]
        exact ih (t + 5000) (by omega) (by omega) (by omega) (by omega)

/-- At elapsed 70000 the run probes once more and then times out at
3605000. -/
theorem wait70000 (node : NodeView)
    (hrec : ∀ u, u ≤ 3600000 → node.receiptAt u = none)
    (h70 : node.transactionAt 70000 = true) :
    Ethereum.waitForTransactionReceipt node 70000 =
      (.error (.trackingTimeout 3605000), [70000]) := by
  have h3 : node.receiptAt 70000 = none := hrec 70000 (by omega)
  rw [Ethereum.waitForTransactionReceipt]
  simp only [h3, h70]
  rw [waitTail node hrec 720 75000 (by omega) (by omega) (by omega) (by omega)]
  norm_num

/-- At elapsed 65000 the run probes, steps to 70000, probes again, and
times out at 3605000. -/
theorem wait65000 (node : NodeView)
    (hrec : ∀ u, u ≤ 3600000 → node.receiptAt u = none)
    (h65 : node.transactionAt 65000 = true)
    (h70 : node.transactionAt 70000 = true) :
    Ethereum.waitForTransactionReceipt node 65000 =
      (.error (.trackingTimeout 3605000), [65000, 70000]) := by
  have h3 : node.receiptAt 65000 = none := hrec 65000 (by omega)
  rw [Ethereum.waitForTransactionReceipt]
  simp only [h3, h65]
  rw [wait70000 node hrec h70]
  norm_num

/-- Below the window, a run on a never-answering node steps tick by tick up
to 65000 and then behaves as from 65000. -/
theorem waitBelow (node : NodeView)
    (hrec : ∀ u, u ≤ 3600000 → node.receiptAt u = none)
    (h65 : node.transactionAt 65000 = true)
    (h70 : node.transactionAt 70000 = true) :
    ∀ m t, t % 5000 = 0 → t + 5000 * m = 65000 →
    Ethereum.waitForTransactionReceipt node t =
      (.error (.trackingTimeout 3605000), [65000, 70000]) := by
  intro m
  induction m with
  | zero =>
      intro t ht5 hm
      have ht : t = 65000 := by omega
      subst ht
      exact wait65000 node hrec h65 h70
  | succ m ih =>
      intro t ht5 hm
      have hbig : ¬ (t > 3600000) := by omega
      have h2 : ¬ (60000 < t ∧ t ≤ 70000) := by omega
      have h3 : node.receiptAt t = none := hrec t (by omega)
      rw [Ethereum.waitForTransactionReceipt]
      simp only [dif_neg hbig, if_neg h2, h3]
      exact ih (t + 5000) (by omega) (by omega)

/-- Full tracking run from elapsed 0 on a node that never produces the
receipt but knows the transaction: the probe happens at 65000 and at 70000,
and the timeout is thrown at 3605000. -/
theorem waitRun0 (node : NodeView)
    (hrec : ∀ u, u ≤ 3600000 → node.receiptAt u = none)
    (h65 : node.transactionAt 65000 = true)
    (h70 : node.transactionAt 70000 = true) :
    Ethereum.waitForTransactionReceipt node 0 =
      (.error (.trackingTimeout 3605000), [65000, 70000]) :=
  waitBelow node hrec h65 h70 13 0 (by omega) (by omega)

/-- Any receipt the tracker returns was obtained from the receipt lookup of
the node at some elapsed time of the run. -/
theorem waitOkFromNode (node : NodeView) :
    ∀ m t rc, 3600001 - t ≤ 5000 * m →
      (Ethereum.waitForTransactionReceipt node t).1 = .ok rc →
      ∃ u, t ≤ u ∧ node.receiptAt u = some rc := by
  intro m
  induction m with
  | zero =>
      intro t rc hm h
      have hbig : t > 3600000 := by omega
      rw [Ethereum.waitForTransactionReceipt] at h
      simp [hbig] at h
  | succ m ih =>
      intro t rc hm h
      by_cases hbig : t > 3600000
      · rw [Ethereum.waitForTransactionReceipt] at h
        simp [hbig] at h
      · rw [Ethereum.waitForTransactionReceipt] at h
        simp only [dif_neg hbig] at h
        by_cases hwin : 60000 < t ∧ t ≤ 70000
        · simp only [if_pos hwin] at h
          cases htx : node.transactionAt t with
          | false => simp [htx] at h
          | true =>
              simp only [htx, if_true] at h
              cases hrc : node.receiptAt t with
              | none =>
                  simp only [hrc] at h
                  obtain ⟨u, hu, hru⟩ := ih (t + 5000) rc (by omega) h
                  exact ⟨u, by omega, hru⟩
              | some r =>
                  simp only [hrc] at h
                  simp at h
                  exact ⟨t, le_refl t, by rw [hrc, h]⟩
        · simp only [if_neg hwin] at h
          cases hrc : node.receiptAt t with
          | none =>
              simp only [hrc] at h
              obtain ⟨u, hu, hru⟩ := ih (t + 5000) rc (by omega) h
              exact ⟨u, by omega, hru⟩
          | some r =>
              simp only [hrc] at h
              simp at h
              exact ⟨t, le_refl t, by rw [hrc, h]⟩

/-- The tracker on `nodeAllSome` started at 0 returns the receipt at once. -/
theorem nodeAllSome_waitFor_ok :
    (Ethereum.waitForTransactionReceipt nodeAllSome 0).1 = .ok rc1 := by
  rw [Ethereum.waitForTransactionReceipt]
  norm_num [nodeAllSome]

/-- C5 counterexample: a present receipt is not always returned.  Past the
1-hour ceiling (elapsed 3605000) the timeout check fires before the receipt
is inspected, and inside the diagnostic window (elapsed 65000) with the
transaction lookup empty the propagation check fires first — in both cases
the receipt query returned a present receipt, yet an error is thrown. -/
theorem c5_present_receipt_not_always_returned :
    nodeAllSome.receiptAt 3605000 = some rc1 ∧
    (Ethereum.waitForTransactionReceipt nodeAllSome 3605000).1 =
      .error (.trackingTimeout 3605000) ∧
    nodePresentNoTx.receiptAt 65000 = some rc1 ∧
    (Ethereum.waitForTransactionReceipt nodePresentNoTx 65000).1 =
      .error (.notPropagated 65000) := by
  refine ⟨rfl, ?_, rfl, ?_⟩
  · rw [Ethereum.waitForTransactionReceipt]
    norm_num
  · rw [Ethereum.waitForTransactionReceipt]
    norm_num [nodePresentNoTx]

/-- C5 amended: whenever the receipt query returns a present receipt at an
elapsed time at most 3600000 ms, and the node still reports the transaction
in case the elapsed time lies in the 60-70 s window, the tracker returns
that receipt immediately. -/
theorem c5_receipt_present_returned_immediately
    (node : NodeView) (t : Nat) (rc : Receipt)
    (hrc : node.receiptAt t = some rc) (hle : t ≤ 3600000)
    (hwin : 60000 < t → t ≤ 70000 → node.transactionAt t = true) :
    (Ethereum.waitForTransactionReceipt node t).1 = .ok rc := by
  have hbig : ¬ (t > 3600000) := by omega
  rw [Ethereum.waitForTransactionReceipt]
  by_cases hw : 60000 < t ∧ t ≤ 70000
  · simp only [dif_neg hbig, if_pos hw, hwin hw.1 hw.2, if_true, hrc]
  · simp only [dif_neg hbig, if_neg hw, hrc]

/-- Witness for the amended C5 at elapsed 0 on a node holding the receipt. -/
theorem c5_receipt_present_returned_immediately_witness :
    (Ethereum.waitForTransactionReceipt nodeAllSome 0).1 = .ok rc1 :=
  c5_receipt_present_returned_immediately nodeAllSome 0 rc1 rfl
    (by omega) (fun _ _ => rfl)

/-- C6 counterexample: on a run from elapsed 0 where the receipt never
appears and the node knows the transaction, the getTransaction probe is
issued at the two elapsed values 65000 and 70000 — twice, not exactly
once. -/
theorem c6_probe_issued_twice_not_once :
    (Ethereum.waitForTransactionReceipt node0 0).2 = [65000, 70000] ∧
    (Ethereum.waitForTransactionReceipt node0 0).2.length ≠ 1 := by
  have h := waitRun0 node0 (fun u _ => rfl) rfl rfl
  exact ⟨by rw [h], by rw [h]; decide⟩

/-- C6 amended: polling at 5000 ms ticks from 0, the window
60000 < t ≤ 70000 contains exactly the two ticks 65000 and 70000, and on a
run where the receipt stays absent and the probe finds the record, the
probe is issued exactly at those two elapsed values. -/
theorem c6_probe_at_65000_and_70000 (node : NodeView)
    (hrec : ∀ u, u ≤ 3600000 → node.receiptAt u = none)
    (h65 : node.transactionAt 65000 = true)
    (h70 : node.transactionAt 70000 = true) :
    (Ethereum.waitForTransactionReceipt node 0).2 = [65000, 70000] ∧
    (∀ t, t % 5000 = 0 → 60000 < t → t ≤ 70000 →
      t = 65000 ∨ t = 70000) := by
  refine ⟨by rw [waitRun0 node hrec h65 h70], ?_⟩
  intro t h1 h2 h3
  omega

/-- Witness for the amended C6 on the concrete never-answering node. -/
theorem c6_probe_at_65000_and_70000_witness :
    (Ethereum.waitForTransactionReceipt node0 0).2 = [65000, 70000] :=
  (c6_probe_at_65000_and_70000 node0 (fun u _ => rfl) rfl rfl).1

/-- C7: when the receipt stays absent (and the window probe finds the
record), the run from elapsed 0 throws the tracking timeout exactly at
elapsed 3605000, the first 5000 ms tick strictly exceeding 3600000, and
performs nothing afterwards. -/
theorem c7_timeout_at_first_tick_past_hour (node : NodeView)
    (hrec : ∀ u, u ≤ 3600000 → node.receiptAt u = none)
    (h65 : node.transactionAt 65000 = true)
    (h70 : node.transactionAt 70000 = true) :
    (Ethereum.waitForTransactionReceipt node 0).1 =
      .error (.trackingTimeout 3605000) ∧
    3600000 < 3605000 ∧
    (∀ t, t % 5000 = 0 → 3600000 < t → 3605000 ≤ t) := by
  refine ⟨by rw [waitRun0 node hrec h65 h70], by omega, ?_⟩
  intro t h1 h2
  omega

/-- Witness for C7 on the concrete never-answering node. -/
theorem c7_timeout_at_first_tick_past_hour_witness :
    (Ethereum.waitForTransactionReceipt node0 0).1 =
      .error (.trackingTimeout 3605000) :=
  (c7_timeout_at_first_tick_past_hour node0 (fun u _ => rfl) rfl rfl).1

/-- C8 counterexample: the tracker can return a receipt whose status field
is absent — it passes the node answer through without inspecting the
status. -/
theorem c8_statusless_receipt_returned :
    (Ethereum.waitForTransactionReceipt nodeNoStatus 0).1 = .ok rcNoStatus ∧
    rcNoStatus.status = none := by
  refine ⟨?_, rfl⟩
  rw [Ethereum.waitForTransactionReceipt]
  norm_num [nodeNoStatus]

/-- C8 amended: every receipt the tracker returns was supplied by the node
receipt query at some elapsed time of the run (never fabricated), so the
returned receipt has a defined status whenever every receipt the node
supplies has one; otherwise the tracker ends with a timeout or propagation
error. -/
theorem c8_returned_receipt_comes_from_node (node : NodeView) :
    (∀ t rc, (Ethereum.waitForTransactionReceipt node t).1 = .ok rc →
      ∃ u, t ≤ u ∧ node.receiptAt u = some rc) ∧
    ((∀ u r, node.receiptAt u = some r → r.status.isSome = true) →
      ∀ t rc, (Ethereum.waitForTransactionReceipt node t).1 = .ok rc →
        rc.status.isSome = true) := by
  constructor
  · intro t rc h
    exact waitOkFromNode node 721 t rc (by omega) h
  · intro hstat t rc h
    obtain ⟨u, _, hu⟩ := waitOkFromNode node 721 t rc (by omega) h
    exact hstat u rc hu

/-- Witness for the amended C8 on the node that always holds receipt rc1. -/
theorem c8_returned_receipt_comes_from_node_witness :
    (∃ u, 0 ≤ u ∧ nodeAllSome.receiptAt u = some rc1) ∧
    rc1.status.isSome = true :=
  ⟨(c8_returned_receipt_comes_from_node nodeAllSome).1 0 rc1
      nodeAllSome_waitFor_ok,
   (c8_returned_receipt_comes_from_node nodeAllSome).2
      (fun u r h => by
        simp only [nodeAllSome, Option.some_inj] at h
        exact h ▸ rfl)
      0 rc1 nodeAllSome_waitFor_ok⟩
